import Mathlib

/-!
Verification of the gpsd streaming client in
`dimos_contrib/gps/gpsd_connection.py`.

The Python code is shallowly embedded: JSON values parsed by `json.loads`
become the inductive `JValue` (Python `None` and JSON `null` are both
`JValue.null`, matching the runtime where both are the single object
`None`); dictionaries become association lists; the message handlers
become pure functions returning the list of reports they emit together
with a flag recording whether a Python exception escaped the handler
(such exceptions are caught per line in `_process_gps_message`).
-/

/-- A JSON value as produced by `json.loads`, also standing for the Python
value `None` via `null`. Numbers are modelled as rationals: the code only
stores and compares them, never does float arithmetic. -/
inductive JValue where
  | null : JValue
  | bool : Bool → JValue
  | num : Rat → JValue
  | str : String → JValue
  | arr : List JValue → JValue
  | obj : List (String × JValue) → JValue

/-- A JSON object: association list of keys to values, unique keys. -/
abbrev JObj := List (String × JValue)

/-- First-match lookup in an association list (Python dict lookup; parsed
JSON objects have unique keys). -/
def jlookup : JObj → String → Option JValue
  | [], _ => none
  | (k, v) :: rest, key => if k = key then some v else jlookup rest key

/-- Python `data.get(key)`: the stored value, or `None` when absent. -/
def pyget (d : JObj) (key : String) : JValue :=
  (jlookup d key).getD JValue.null

/-- Python `data.get(key, default)`. -/
def pygetD (d : JObj) (key : String) (dflt : JValue) : JValue :=
  (jlookup d key).getD dflt

/-- Python `v is None`. -/
def isNone : JValue → Bool
  | JValue.null => true
  | _ => false

/-- Python truthiness of a value, as used by `if sat.get("used", False)`. -/
def truthy : JValue → Bool
  | JValue.null => false
  | JValue.bool b => b
  | JValue.num q => q ≠ 0
  | JValue.str s => ¬ s.isEmpty
  | JValue.arr l => ¬ l.isEmpty
  | JValue.obj l => ¬ l.isEmpty

/-- Numeric view used by Python order comparisons such as `mode < 2`:
ints/floats compare as numbers, `bool` is an int subtype, anything else
raises `TypeError` (modelled as `none`). -/
def asPyNumber : JValue → Option Rat
  | JValue.num q => some q
  | JValue.bool b => some (if b then 1 else 0)
  | _ => none

/-- Python `v == s` for a string literal `s`: true only when `v` is an
equal string; comparison across types is `False`, never an error. -/
def eqStr (v : JValue) (s : String) : Bool :=
  match v with
  | JValue.str t => t = s
  | _ => false

/-- Modelled from the spec: the record type `LatLon` lives in the external
`dimos.mapping.types` package, not in this repository. The spec gives
`PositionReport` the shape lat/lon float64 with altitude optional, and
says numeric fields that fail to coerce drop the derived report, so the
constructor validates that lat and lon (and alt, when not `None`) are
numbers and fails otherwise. -/
structure LatLon where
  lat : Rat
  lon : Rat
  alt : Option Rat
deriving DecidableEq, Repr

/-- Modelled from the spec: `LatLon(lat=.., lon=.., alt=..)` construction
with numeric coercion; `none` is the Python exception escaping the
constructor. An `alt` of `None` becomes an absent altitude. -/
def LatLon.make (lat lon alt : JValue) : Option LatLon :=
  match asPyNumber lat, asPyNumber lon with
  | some la, some lo =>
      match alt with
      | JValue.null => some ⟨la, lo, none⟩
      | v =>
          match asPyNumber v with
          | some a => some ⟨la, lo, some a⟩
          | none => none
  | _, _ => none

/-- The `velocity_data` dictionary built by `_process_tpv`: raw values
from the message with `0.0` substituted for `None`. -/
structure VelocityData where
  speed : JValue
  track : JValue
  climb : JValue

/-- The `quality_data` dictionary built by `_process_sky`; the three DOP
slots hold the raw `data.get(..)` results (`null` when absent). -/
structure QualityData where
  satellites : Nat
  satellites_used : Nat
  hdop : JValue
  vdop : JValue
  pdop : JValue

/-- A typed report emitted to a subject (and written to the cache). -/
inductive Report where
  | position : LatLon → Report
  | velocity : VelocityData → Report
  | quality : QualityData → Report

/-- Python `x if x is not None else 0.0`. -/
def vOr0 (v : JValue) : JValue :=
  if isNone v then JValue.num 0 else v

/-- Embedding of `GPSdConnection._process_tpv` (lines 187-222). Returns
the reports emitted in order, paired with `true` when a Python exception
escaped (caught one level up, dropping the rest of the line). -/
def process_tpv (data : JObj) : List Report × Bool :=
  match asPyNumber (pygetD data "mode" (JValue.num 0)) with
  | none => ([], true)
  | some m =>
    if m < 2 then ([], false)
    else
      let lat := pyget data "lat"
      let lon := pyget data "lon"
      let alt := if 3 ≤ m then pyget data "alt" else JValue.null
      let pos : List Report × Bool :=
        if !(isNone lat) && !(isNone lon) then
          match LatLon.make lat lon alt with
          | some p => ([Report.position p], false)
          | none => ([], true)
        else ([], false)
      if pos.2 then pos
      else
        let speed := pyget data "speed"
        let track := pyget data "track"
        let climb := pyget data "climb"
        if !(isNone speed) || !(isNone track) || !(isNone climb) then
          (pos.1 ++ [Report.velocity ⟨vOr0 speed, vOr0 track, vOr0 climb⟩], false)
        else (pos.1, false)

/-- The generator sum `sum(1 for sat in satellites if sat.get("used", False))`:
counts elements whose `used` entry is truthy; any element without a `.get`
method (a non-dict) raises `AttributeError`, modelled as `none`. -/
def countUsed : List JValue → Option Nat
  | [] => some 0
  | JValue.obj o :: rest =>
      match countUsed rest with
      | some n => some ((if truthy (pygetD o "used" (JValue.bool false)) then 1 else 0) + n)
      | none => none
  | _ :: _ => none

/-- Embedding of `GPSdConnection._process_sky` (lines 224-244). `len` works
on lists, strings and dicts but raises on other values; iterating a
non-empty string or dict yields elements without `.get`, which raises. -/
def process_sky (data : JObj) : List Report × Bool :=
  let mk : Nat → Nat → List Report × Bool := fun nSats nUsed =>
    ([Report.quality ⟨nSats, nUsed, pyget data "hdop", pyget data "vdop",
        pyget data "pdop"⟩], false)
  match pygetD data "satellites" (JValue.arr []) with
  | JValue.arr l =>
      match countUsed l with
      | some n => mk l.length n
      | none => ([], true)
  | JValue.str s => if s.isEmpty then mk 0 0 else ([], true)
  | JValue.obj o => if o.isEmpty then mk 0 0 else ([], true)
  | _ => ([], true)

/-- Embedding of `GPSdConnection._process_gps_message` (lines 167-185).
The argument is the result of `json.loads` on the line: `none` when the
text is not valid JSON (`JSONDecodeError`, logged at debug severity and
swallowed). A non-dict value raises at `data.get`, caught by the generic
handler; every exception from the class handlers is likewise caught, so
the function totalises to the reports emitted before any failure. -/
def process_gps_message (msg : Option JValue) : List Report :=
  match msg with
  | none => []
  | some (JValue.obj d) =>
      if eqStr (pygetD d "class" (JValue.str "")) "TPV" then (process_tpv d).1
      else if eqStr (pygetD d "class" (JValue.str "")) "SKY" then (process_sky d).1
      else []
  | some _ => []

/-- Reports produced by a sequence of already-parsed lines, in order. -/
def processMessages (msgs : List (Option JValue)) : List Report :=
  msgs.flatMap process_gps_message

/-- Python `buffer.split("\n", 1)` guarded by `"\n" in buffer`: the text
before the first newline and the remainder, or `none` when the buffer
holds no newline. -/
def splitFirst : List Char → Option (List Char × List Char)
  | [] => none
  | c :: rest =>
      if c = '\n' then some ([], rest)
      else
        match splitFirst rest with
        | some (l, r) => some (c :: l, r)
        | none => none

/-- The `while "\n" in buffer` loop of `_gps_loop` (lines 158-159) in
structural form: the complete lines before each newline, and the trailing
text after the last newline kept as the new buffer. Theorem `drain_loop`
below proves this function satisfies the defining equation of the Python
loop, which repeatedly splits at the first newline. -/
def drain : List Char → List (List Char) × List Char
  | [] => ([], [])
  | c :: rest =>
      if c = '\n' then ([] :: (drain rest).1, (drain rest).2)
      else
        match drain rest with
        | ([], b) => ([], c :: b)
        | (l :: ls, b) => ((c :: l) :: ls, b)

/-- The structural `drain` is exactly the Python loop: if the buffer has a
newline, extract the first line and keep draining the remainder, else
stop with the buffer unchanged. -/
theorem drain_loop (b : List Char) :
    drain b =
      match splitFirst b with
      | none => ([], b)
      | some (l, r) => (l :: (drain r).1, (drain r).2) := by
  induction b with
  | nil => simp [drain, splitFirst]
  | cons c rest ih =>
      by_cases hc : c = '\n'
      · subst hc
        simp [drain, splitFirst]
      · rcases hs : splitFirst rest with _ | ⟨l, r⟩
        · have : drain rest = ([], rest) := by rw [ih, hs]
          simp [drain, splitFirst, hc, hs, this]
        · have : drain rest = (l :: (drain r).1, (drain r).2) := by rw [ih, hs]
          simp [drain, splitFirst, hc, hs, this]

/-- The buffer left by `drain` holds no newline. -/
theorem drain_snd_noNL (b : List Char) : Char.ofNat 10 ∉ (drain b).2 := by
  induction b with
  | nil => simp [drain]
  | cons c rest ih =>
      by_cases hc : c = '\n'
      · subst hc; simpa [drain] using ih
      · rcases hd : drain rest with ⟨ls, b2⟩
        cases ls with
        | nil =>
            rw [hd] at ih
            simp only [drain, hc, if_neg hc, hd]
            intro hmem
            rcases List.mem_cons.mp hmem with h1 | h2
            · exact hc (by simpa using h1.symm)
            · exact ih h2
        | cons l ls =>
            rw [hd] at ih
            simpa [drain, hc, hd] using ih

/-- A newline-free buffer drains to itself with no line extracted. -/
theorem drain_of_noNL (b : List Char) (h : Char.ofNat 10 ∉ b) :
    drain b = ([], b) := by
  induction b with
  | nil => simp [drain]
  | cons c rest ih =>
      have hc : c ≠ '\n' := by
        intro hcc
        exact h (by simp [hcc])
      have hrest : Char.ofNat 10 ∉ rest := fun hm => h (List.mem_cons_of_mem _ hm)
      simp [drain, hc, ih hrest]

/-- Draining a concatenation: first drain the left part, then drain its
leftover buffer joined with the right part. -/
theorem drain_append (x y : List Char) :
    drain (x ++ y) =
      ((drain x).1 ++ (drain ((drain x).2 ++ y)).1,
       (drain ((drain x).2 ++ y)).2) := by
  induction x with
  | nil => simp [drain]
  | cons c rest ih =>
      by_cases hc : c = '\n'
      · subst hc
        simp [drain, ih]
      · rcases hd : drain rest with ⟨ls, b⟩
        cases ls with
        | nil =>
            rw [hd] at ih
            simp only at ih
            rcases he : drain (b ++ y) with ⟨ls2, b2⟩
            cases ls2 with
            | nil =>
                simp [drain, hc, hd, ih, he]
            | cons l2 ls2 =>
                simp [drain, hc, hd, ih, he]
        | cons l ls =>
            rw [hd] at ih
            simp only at ih
            simp [drain, hc, hd, ih]

/-- One observed outcome of the `self.socket.recv(4096)` call in
`_gps_loop`: a timeout, a read exception, empty data (peer closed), or
received text. The error and eof events carry the result the environment
gives the `self.connect()` call made in that branch. -/
inductive ReadEvent where
  | timeout : ReadEvent
  | error : Bool → ReadEvent
  | eof : Bool → ReadEvent
  | data : List Char → ReadEvent

/-- Externally visible actions of a loop iteration: sleeps (duration in
seconds), connection attempts with their outcome, socket closes, and
lines handed to `_process_gps_message`. -/
inductive LoopAction where
  | sleep : Rat → LoopAction
  | connectAttempt : Bool → LoopAction
  | closeSocket : LoopAction
  | processLine : List Char → LoopAction
deriving DecidableEq
def isPySpace (c : Char) : Bool :=
  c = ' ' || c = '\t' || c = '\n' || c = '\r' || c = '\x0b' || c = '\x0c'

/-- Python `if line.strip():` — true when the line has any non-whitespace
character. -/
def nonBlank (l : List Char) : Bool :=
  l.any (fun c => !(isPySpace c))

/-- One streaming session of the buffering code handed a list of socket
reads: each read is appended to the buffer and the buffer is drained of
complete lines (lines 156-159); returns all extracted lines in order and
the final buffer. -/
def feedChunks : List (List Char) → List Char → List (List Char) × List Char
  | [], buf => ([], buf)
  | c :: cs, buf =>
      let p := drain (buf ++ c)
      let q := feedChunks cs p.2
      (p.1 ++ q.1, q.2)

/-- Decoding of the extracted lines: only lines passing the
`if line.strip():` guard reach `_process_gps_message` (lines 160-161);
`parse` stands for `json.loads`, with `none` for a decode error. -/
def decodeLines (parse : List Char → Option JValue) (ls : List (List Char)) :
    List Report :=
  (ls.filter nonBlank).flatMap (fun l => process_gps_message (parse l))

/-- Feeding chunks into a newline-free buffer equals draining the whole
concatenation at once. -/
theorem feedChunks_eq_drain (cs : List (List Char)) (b : List Char)
    (h : Char.ofNat 10 ∉ b) :
    feedChunks cs b = drain (b ++ cs.flatten) := by
  induction cs generalizing b with
  | nil => simp [feedChunks, drain_of_noNL b h]
  | cons c cs ih =>
      have hb1 : Char.ofNat 10 ∉ (drain (b ++ c)).2 := drain_snd_noNL _
      have := ih (drain (b ++ c)).2 hb1
      simp only [feedChunks, this, List.flatten_cons]
      rw [show b ++ (c ++ cs.flatten) = (b ++ c) ++ cs.flatten by simp,
        drain_append (b ++ c) cs.flatten]

/-- One iteration of `_gps_loop` (lines 129-161) while `_running` holds,
on buffer `buf` and read outcome `ev`: the new buffer plus the actions
performed. A timeout just iterates. On a read exception (lines 141-147)
the code sleeps 0.5 s, calls `connect`, and sleeps a further 5.0 s if
that fails; an empty read (lines 149-154) sleeps 1.0 s before the
attempt. Neither branch closes the old socket or touches the buffer: the
socket is merely replaced inside `connect`. Received text is appended to
the buffer and the complete lines passing the `strip` guard are handed to
the message handler. -/
def loopStep (buf : List Char) : ReadEvent → List Char × List LoopAction
  | ReadEvent.timeout => (buf, [])
  | ReadEvent.error ok =>
      (buf, [LoopAction.sleep (1/2), LoopAction.connectAttempt ok] ++
        if ok then [] else [LoopAction.sleep 5])
  | ReadEvent.eof ok =>
      (buf, [LoopAction.sleep 1, LoopAction.connectAttempt ok] ++
        if ok then [] else [LoopAction.sleep 5])
  | ReadEvent.data s =>
      let p := drain (buf ++ s)
      (p.2, (p.1.filter nonBlank).map LoopAction.processLine)

/-- The read loop over a session: one iteration per event with the buffer
threaded through; no event makes the loop exit while streaming is
requested. -/
def gpsLoop (buf : List Char) : List ReadEvent → List LoopAction
  | [] => []
  | ev :: evs =>
      let p := loopStep buf ev
      p.2 ++ gpsLoop p.1 evs

/-- A full session: `_gps_loop` initialises `buffer = ""` on entry
(line 127), so a new read loop is the only place the buffer is reset. -/
def gpsLoopRun (evs : List ReadEvent) : List LoopAction :=
  gpsLoop [] evs

/-- Reports decoded from the `processLine` actions of a session, with
`parse` standing for `json.loads`. -/
def decodeActions (parse : List Char → Option JValue) (as : List LoopAction) :
    List Report :=
  as.flatMap (fun a =>
    match a with
    | LoopAction.processLine l => process_gps_message (parse l)
    | _ => [])

/-- The fields of `GPSdConnection` consulted by `start_streaming`: the
`connected` and `_running` flags, plus a count of reader threads launched
so far to make duplicate launches observable. -/
structure ClientState where
  connected : Bool
  running : Bool
  threadsStarted : Nat
deriving DecidableEq, Repr

/-- Observable side effects of a `start_streaming` call. -/
inductive StartAction where
  | connectAttempt : Bool → StartAction
  | spawnThread : StartAction
deriving DecidableEq

/-- Embedding of `GPSdConnection.start_streaming` (lines 102-115), with
`connectOk` the outcome the environment would give a `connect()` call:
when already running it returns `True` at once; otherwise it connects if
not yet connected (a failed connect returns `False`), then sets
`_running`, launches the reader thread and returns `True`. -/
def start_streaming (connectOk : Bool) (s : ClientState) :
    Bool × ClientState × List StartAction :=
  if s.running then (true, s, [])
  else if s.connected then
    (true, { s with running := true, threadsStarted := s.threadsStarted + 1 },
      [StartAction.spawnThread])
  else if connectOk then
    (true, { connected := true, running := true,
             threadsStarted := s.threadsStarted + 1 },
      [StartAction.connectAttempt true, StartAction.spawnThread])
  else
    (false, { s with connected := false },
      [StartAction.connectAttempt false])

/-- The three latest-value cache slots (lines 65-68): `_latest_location`
starts as `None`; `_latest_velocity` and `_latest_quality` start as empty
dicts — their "none" state, here `Option.none` — and are only ever
rebound to fully populated dicts by the handlers. -/
structure Cache where
  loc : Option LatLon
  vel : Option VelocityData
  qual : Option QualityData

/-- Writing one decoded report to its cache slot (lines 205-206, 220-221
and 242-243): most recent wins, the other slots are untouched. -/
def applyReport (c : Cache) : Report → Cache
  | Report.position p => { c with loc := some p }
  | Report.velocity v => { c with vel := some v }
  | Report.quality q => { c with qual := some q }

/-- Whole-client state for the lifecycle operations relevant to the
cache invariant. -/
structure FullState where
  connected : Bool
  running : Bool
  cache : Cache

/-- Lifecycle and data operations that can hit a live client. -/
inductive Op where
  | connect : Bool → Op
  | disconnect : Op
  | stopStreaming : Op
  | message : Option JValue → Op

/-- Effect of each operation: `connect` (lines 70-89) only sets the
`connected` flag by its outcome, `disconnect` (lines 91-100) clears it,
`stop_streaming` (lines 117-123) clears `_running` and disconnects —
none of them mention the cache fields — and a decoded line updates
exactly the cache slots of the reports it yields. -/
def applyOp (s : FullState) : Op → FullState
  | Op.connect ok =>
      if ok then { s with connected := true } else { s with connected := false }
  | Op.disconnect => { s with connected := false }
  | Op.stopStreaming => { s with running := false, connected := false }
  | Op.message m =>
      { s with cache := (process_gps_message m).foldl applyReport s.cache }

/-- Running a sequence of operations. -/
def runOps (s : FullState) : List Op → FullState
  | [] => s
  | op :: ops => runOps (applyOp s op) ops

/-- The freshly constructed client (lines 49-68). -/
def initState : FullState :=
  { connected := false, running := false,
    cache := { loc := none, vel := none, qual := none } }

/-- A reference heap for one dict-valued cache slot: `mem` maps addresses
to object contents, `next` is the next fresh address, `cur` the address
the slot is currently bound to. Python assignment stores references and
`.copy()` allocates a fresh object. -/
structure RefStore (α : Type) where
  mem : Nat → α
  next : Nat
  cur : Nat

/-- Embedding of `get_latest_velocity` (lines 279-286): it returns
`self._latest_velocity.copy()` — a freshly allocated dict with the same
content; the slot keeps its own reference. -/
def get_latest_velocity (s : RefStore VelocityData) : Nat × RefStore VelocityData :=
  (s.next,
    { mem := fun a => if a = s.next then s.mem s.cur else s.mem a,
      next := s.next + 1, cur := s.cur })

/-- Embedding of `get_latest_quality` (lines 288-295): same copy-out as
the velocity getter. -/
def get_latest_quality (s : RefStore QualityData) : Nat × RefStore QualityData :=
  (s.next,
    { mem := fun a => if a = s.next then s.mem s.cur else s.mem a,
      next := s.next + 1, cur := s.cur })

/-- Line 221: `self._latest_velocity = velocity_data` rebinds the slot to
the freshly built dict; no existing object is mutated. -/
def set_latest_velocity (s : RefStore VelocityData) (v : VelocityData) :
    RefStore VelocityData :=
  { mem := fun a => if a = s.next then v else s.mem a,
    next := s.next + 1, cur := s.next }

/-- The `_latest_location` slot: a reference to a `LatLon` object, or
`None` before the first fix. -/
structure LocStore where
  mem : Nat → LatLon
  next : Nat
  cur : Option Nat

/-- Embedding of `get_latest_location` (lines 270-277): it returns
`self._latest_location` itself — the stored reference, with no copy
taken. -/
def get_latest_location (s : LocStore) : Option Nat := s.cur

/-- Line 206: `self._latest_location = LatLon(...)` constructs a fresh
object and rebinds the slot to its reference. -/
def set_latest_location (s : LocStore) (v : LatLon) : LocStore :=
  { mem := fun a => if a = s.next then v else s.mem a,
    next := s.next + 1, cur := some s.next }

/-- Statement helper: an optional number as the Python value read from a
message field, `None` when the field is absent. -/
def ofOptNum : Option Rat → JValue
  | none => JValue.null
  | some q => JValue.num q

/-- The `used == true` count the spec speaks about: true exactly when the
entry carries a boolean `used` field holding true. -/
def usedFlag (o : JObj) : Bool :=
  match pygetD o "used" (JValue.bool false) with
  | JValue.bool b => b
  | _ => false

/-- C1: for a TPV line with a numeric mode and each of the six data
fields either absent or numeric, the handler produces no report when the
mode is below 2; otherwise it produces a position report exactly when
both lat and lon are present, carrying the input coordinates with the
altitude included exactly when the mode is at least 3 and alt was
supplied, and additionally a velocity report exactly when at least one of
speed, track or climb is present, the absent ones defaulting to 0.0. -/
theorem claim1_tpv_decode (d : JObj) (m : Rat) (la lo al sp tr cl : Option Rat)
    (hm : pygetD d "mode" (JValue.num 0) = JValue.num m)
    (hla : pyget d "lat" = ofOptNum la)
    (hlo : pyget d "lon" = ofOptNum lo)
    (hal : pyget d "alt" = ofOptNum al)
    (hsp : pyget d "speed" = ofOptNum sp)
    (htr : pyget d "track" = ofOptNum tr)
    (hcl : pyget d "climb" = ofOptNum cl) :
    process_tpv d =
      if m < 2 then ([], false)
      else
        ((match la, lo with
          | some a, some b =>
              [Report.position ⟨a, b, if 3 ≤ m then al else none⟩]
          | _, _ => []) ++
         (match sp, tr, cl with
          | none, none, none => []
          | _, _, _ =>
              [Report.velocity ⟨JValue.num (sp.getD 0), JValue.num (tr.getD 0),
                 JValue.num (cl.getD 0)⟩]),
         false) := by
  unfold process_tpv
  rw [hm]
  by_cases h2 : m < 2
  · simp [asPyNumber, h2]
  · by_cases h3 : 3 ≤ m <;>
      rcases la with _ | a <;> rcases lo with _ | b <;>
      rcases al with _ | av <;> rcases sp with _ | sv <;>
      rcases tr with _ | tv <;> rcases cl with _ | cv <;>
      simp [asPyNumber, h2, h3, hla, hlo, hal, hsp, htr, hcl,
        ofOptNum, isNone, LatLon.make, vOr0]

/-- The spec scenario TPV line with mode 3, lat 37.5, lon -122.3,
alt 10.0, speed 1.2, track 90.0, already parsed. -/
def scenarioTpv : JObj :=
  [("class", JValue.str "TPV"), ("mode", JValue.num 3),
   ("lat", JValue.num (75/2)), ("lon", JValue.num (-1223/10)),
   ("alt", JValue.num 10), ("speed", JValue.num (6/5)),
   ("track", JValue.num 90)]

/-- Witness for C1: the scenario line yields the position report
37.5 / -122.3 with altitude 10 and the velocity report 1.2 / 90 / 0. -/
theorem claim1_tpv_decode_witness :
    process_tpv scenarioTpv =
      ([Report.position ⟨75/2, -1223/10, some 10⟩,
        Report.velocity ⟨JValue.num (6/5), JValue.num 90, JValue.num 0⟩],
       false) := by
  have h := claim1_tpv_decode scenarioTpv 3 (some (75/2)) (some (-1223/10))
    (some 10) (some (6/5)) (some 90) none rfl rfl rfl rfl rfl rfl rfl
  rw [h]
  norm_num

/-- C2: feeding the byte stream to the read-loop buffer in arbitrary
successive reads hands exactly the lines, and retains exactly the partial
trailing line, of delivering the whole stream in one read — and hence
decodes to the same report sequence under any parse function. -/
theorem claim2_chunking_roundtrip (chunks : List (List Char)) :
    feedChunks chunks [] = feedChunks [chunks.flatten] [] ∧
    ∀ parse : List Char → Option JValue,
      decodeLines parse (feedChunks chunks []).1 =
        decodeLines parse (feedChunks [chunks.flatten] []).1 := by
  have h1 : feedChunks chunks [] = drain chunks.flatten := by
    simpa using feedChunks_eq_drain chunks [] (by simp)
  have h2 : feedChunks [chunks.flatten] [] = drain chunks.flatten := by
    simp [feedChunks]
  refine ⟨by rw [h1, h2], fun parse => by rw [h1, h2]⟩

/-- The code counts an entry when its `used` field is truthy; on entries
whose `used` field is boolean or absent this is the count of entries with
`used == true`. -/
theorem countUsed_objs (sats : List JObj)
    (hb : ∀ o ∈ sats, ∃ b : Bool,
      pygetD o "used" (JValue.bool false) = JValue.bool b) :
    countUsed (sats.map JValue.obj) = some (sats.countP usedFlag) := by
  induction sats with
  | nil => simp [countUsed]
  | cons o rest ih =>
      obtain ⟨b, hbo⟩ := hb o (by simp)
      have ih2 := ih (fun o ho => hb o (by simp [ho]))
      simp [countUsed, ih2, List.countP_cons, hbo, truthy, usedFlag]
      cases b <;> simp [Nat.add_comm]

/-- C3: a SKY line whose satellites field is a list of dicts with boolean
or absent `used` flags yields exactly one quality report in which the
visible count is the list length, the used count is the number of entries
with `used == true` and never exceeds the visible count, and the three
DOP fields carry exactly the input values, null when absent. -/
theorem claim3_sky_decode (d : JObj) (sats : List JObj)
    (hs : pygetD d "satellites" (JValue.arr []) =
      JValue.arr (sats.map JValue.obj))
    (hb : ∀ o ∈ sats, ∃ b : Bool,
      pygetD o "used" (JValue.bool false) = JValue.bool b) :
    process_sky d =
      ([Report.quality ⟨sats.length, sats.countP usedFlag, pyget d "hdop",
          pyget d "vdop", pyget d "pdop"⟩], false) ∧
    sats.countP usedFlag ≤ sats.length := by
  constructor
  · simp [process_sky, hs, countUsed_objs sats hb]
  · exact List.countP_le_length _

/-- The spec scenario SKY line: three satellites, two used, hdop 1.1. -/
def scenarioSky : JObj :=
  [("class", JValue.str "SKY"),
   ("satellites", JValue.arr
     [JValue.obj [("used", JValue.bool true)],
      JValue.obj [("used", JValue.bool true)],
      JValue.obj [("used", JValue.bool false)]]),
   ("hdop", JValue.num (11/10))]

/-- Witness for C3: the scenario line yields three visible, two used,
hdop 1.1 and absent vdop/pdop. -/
theorem claim3_sky_decode_witness :
    process_sky scenarioSky =
      ([Report.quality ⟨3, 2, JValue.num (11/10), JValue.null,
          JValue.null⟩], false) := by
  have h := claim3_sky_decode scenarioSky
    [[("used", JValue.bool true)], [("used", JValue.bool true)],
     [("used", JValue.bool false)]]
    rfl
    (by
      intro o ho
      simp only [List.mem_cons, List.not_mem_nil, or_false] at ho
      rcases ho with h1 | h1 | h1 <;> subst h1 <;> exact ⟨_, rfl⟩)
  rw [h.1]
  rfl

/-- A concrete location store: one `LatLon` object allocated at address 0
and bound to the `_latest_location` slot. -/
def locStoreEx : LocStore :=
  { mem := fun _ => ⟨1, 2, none⟩, next := 1, cur := some 0 }

/-- C4 counterexample: with a cached location present, the location
getter hands back exactly the reference stored in the cache slot — the
live cached object, not a snapshot copy, refuting the claim that every
getter returns a copy and never the live object. -/
theorem claim4_counterexample :
    get_latest_location locStoreEx = locStoreEx.cur ∧
    locStoreEx.cur = some 0 :=
  ⟨rfl, rfl⟩

/-- C4 amended: the velocity and quality getters return a snapshot copy —
a freshly allocated object distinct from the cached reference with equal
content, leaving the slot and every existing object unchanged — while the
location getter returns the cached reference itself without copying;
since every cache update allocates a fresh object and rebinds the slot,
no previously returned reference ever changes content under an update. -/
theorem claim4_snapshot_semantics (sv : RefStore VelocityData)
    (sq : RefStore QualityData) (sl : LocStore)
    (hv : sv.cur < sv.next) (hq : sq.cur < sq.next) :
    ((get_latest_velocity sv).1 ≠ sv.cur ∧
     (get_latest_velocity sv).2.mem (get_latest_velocity sv).1 =
       sv.mem sv.cur ∧
     (get_latest_velocity sv).2.cur = sv.cur ∧
     (∀ a, a < sv.next → (get_latest_velocity sv).2.mem a = sv.mem a)) ∧
    ((get_latest_quality sq).1 ≠ sq.cur ∧
     (get_latest_quality sq).2.mem (get_latest_quality sq).1 =
       sq.mem sq.cur ∧
     (get_latest_quality sq).2.cur = sq.cur ∧
     (∀ a, a < sq.next → (get_latest_quality sq).2.mem a = sq.mem a)) ∧
    get_latest_location sl = sl.cur ∧
    (∀ v a, a < sl.next → (set_latest_location sl v).mem a = sl.mem a) ∧
    (∀ v a, a < sv.next → (set_latest_velocity sv v).mem a = sv.mem a) := by
  refine ⟨⟨?_, ?_, rfl, ?_⟩, ⟨?_, ?_, rfl, ?_⟩, rfl, ?_, ?_⟩
  · exact fun h => absurd (h ▸ hv) (lt_irrefl _)
  · simp [get_latest_velocity]
  · intro a ha
    simp [get_latest_velocity, Nat.ne_of_lt ha]
  · exact fun h => absurd (h ▸ hq) (lt_irrefl _)
  · simp [get_latest_quality]
  · intro a ha
    simp [get_latest_quality, Nat.ne_of_lt ha]
  · intro v a ha
    simp [set_latest_location, Nat.ne_of_lt ha]
  · intro v a ha
    simp [set_latest_velocity, Nat.ne_of_lt ha]

/-- A concrete velocity store with one allocated dict. -/
def velStoreEx : RefStore VelocityData :=
  { mem := fun _ => ⟨JValue.num 0, JValue.num 0, JValue.num 0⟩,
    next := 1, cur := 0 }

/-- A concrete quality store with one allocated dict. -/
def qualStoreEx : RefStore QualityData :=
  { mem := fun _ => ⟨0, 0, JValue.null, JValue.null, JValue.null⟩,
    next := 1, cur := 0 }

/-- Witness for the amended C4: the copy-out and no-copy behaviour at the
concrete one-object stores. -/
theorem claim4_snapshot_semantics_witness :
    velStoreEx.cur < velStoreEx.next ∧
    qualStoreEx.cur < qualStoreEx.next ∧
    ((get_latest_velocity velStoreEx).1 ≠ velStoreEx.cur ∧
     get_latest_location locStoreEx = locStoreEx.cur) := by
  have h := claim4_snapshot_semantics velStoreEx qualStoreEx locStoreEx
    (by decide) (by decide)
  exact ⟨by decide, by decide, h.1.1, h.2.2.1⟩

/-- A TPV line with a 2-D fix, a non-numeric lat, a valid lon and an
intact speed field, already parsed. -/
def badLatTpv : JObj :=
  [("class", JValue.str "TPV"), ("mode", JValue.num 2),
   ("lat", JValue.str "abc"), ("lon", JValue.num 1),
   ("speed", JValue.num (6/5))]

/-- C5 counterexample: on a TPV line whose lat fails numeric coercion but
whose speed field is intact, the code delivers no report at all — the
coercion failure raises out of the position constructor, the per-line
handler catches it, and the velocity report the claim requires is never
built. -/
theorem claim5_counterexample :
    process_gps_message (some (JValue.obj badLatTpv)) = [] ∧
    process_tpv badLatTpv = ([], true) :=
  ⟨rfl, rfl⟩

/-- C5 amended: on a recognized TPV line with a fix mode of at least 2,
a present but non-numeric lat and a present lon, the coercion failure
raised while building the position report aborts the handler, so the
whole remainder of the line is dropped — neither the position report nor
a velocity report from the same line is produced — while the session
continues and every later line is processed exactly as if the failing
line were absent. -/
theorem claim5_line_dropped (d : JObj) (m : Rat) (s : String)
    (hcls : eqStr (pygetD d "class" (JValue.str "")) "TPV" = true)
    (hm : pygetD d "mode" (JValue.num 0) = JValue.num m)
    (h2 : 2 ≤ m)
    (hla : pyget d "lat" = JValue.str s)
    (hlo : isNone (pyget d "lon") = false) :
    process_tpv d = ([], true) ∧
    process_gps_message (some (JValue.obj d)) = [] ∧
    ∀ rest : List (Option JValue),
      processMessages (some (JValue.obj d) :: rest) = processMessages rest := by
  have hpt : process_tpv d = ([], true) := by
    unfold process_tpv
    rw [hm]
    simp only [isNone] at hlo
    simp [asPyNumber, not_lt.mpr h2, hla, hlo, isNone, LatLon.make]
  refine ⟨hpt, ?_, ?_⟩
  · simp [process_gps_message, hcls, hpt]
  · intro rest
    simp [processMessages, process_gps_message, hcls, hpt]

/-- Witness for the amended C5: the concrete bad-lat line is dropped
whole and leaves a following line untouched. -/
theorem claim5_line_dropped_witness :
    process_tpv badLatTpv = ([], true) ∧
    processMessages [some (JValue.obj badLatTpv), some (JValue.obj scenarioSky)] =
      processMessages [some (JValue.obj scenarioSky)] := by
  have h := claim5_line_dropped badLatTpv 2 "abc" rfl rfl (by norm_num) rfl rfl
  exact ⟨h.1, h.2.2 [some (JValue.obj scenarioSky)]⟩

/-- C6 counterexample: the full action trace of a loop iteration that
hits a read error whose reconnect attempt fails is sleep 0.5 s, connect
attempt, sleep 5.0 s — it contains no socket close, so the claimed
reconnect sequence, which begins by closing the current socket, is not
what the code runs. -/
theorem claim6_counterexample :
    gpsLoopRun [ReadEvent.error false] =
      [LoopAction.sleep (1/2), LoopAction.connectAttempt false,
       LoopAction.sleep 5] ∧
    LoopAction.closeSocket ∉ gpsLoopRun [ReadEvent.error false] := by
  refine ⟨rfl, ?_⟩
  decide

/-- C6 amended: on a read error the loop sleeps 0.5 seconds (1.0 seconds
after a zero-length read), attempts a reconnect, and sleeps a further
5.0 seconds when that attempt fails; it never closes the old socket —
`connect` merely replaces it — it leaves the buffer alone, and it
continues with the next iteration whatever the outcome, so it never gives
up while streaming is active. -/
theorem claim6_reconnect_policy (b : List Char) (ok : Bool)
    (rest : List ReadEvent) :
    loopStep b (ReadEvent.error ok) =
      (b, [LoopAction.sleep (1/2), LoopAction.connectAttempt ok] ++
        if ok then [] else [LoopAction.sleep 5]) ∧
    loopStep b (ReadEvent.eof ok) =
      (b, [LoopAction.sleep 1, LoopAction.connectAttempt ok] ++
        if ok then [] else [LoopAction.sleep 5]) ∧
    LoopAction.closeSocket ∉ (loopStep b (ReadEvent.error ok)).2 ∧
    LoopAction.closeSocket ∉ (loopStep b (ReadEvent.eof ok)).2 ∧
    gpsLoop b (ReadEvent.error ok :: rest) =
      (loopStep b (ReadEvent.error ok)).2 ++ gpsLoop b rest ∧
    gpsLoop b (ReadEvent.eof ok :: rest) =
      (loopStep b (ReadEvent.eof ok)).2 ++ gpsLoop b rest := by
  refine ⟨rfl, rfl, ?_, ?_, rfl, rfl⟩ <;>
    cases ok <;> simp [loopStep]

/-- C7: a line that fails JSON parsing yields no report, the decoder
absorbs the failure instead of raising (it is a total function into
report lists), and a line sequence containing the malformed line decodes
to exactly the reports of the same sequence without it, wherever it
sits; the buffering layer never consults the decoder, so line extraction
and the retained buffer are unchanged by the failure. -/
theorem claim7_malformed_silent (parse : List Char → Option JValue)
    (bad : List Char) (hbad : parse bad = none) :
    process_gps_message (parse bad) = [] ∧
    (∀ pre post : List (List Char),
      decodeLines parse (pre ++ bad :: post) =
        decodeLines parse (pre ++ post)) ∧
    (∀ buf s, loopStep buf (ReadEvent.data s) =
      ((drain (buf ++ s)).2,
       ((drain (buf ++ s)).1.filter nonBlank).map LoopAction.processLine)) := by
  refine ⟨by rw [hbad]; rfl, ?_, fun buf s => rfl⟩
  intro pre post
  by_cases hnb : nonBlank bad
  · simp [decodeLines, List.filter_append, List.filter_cons, hnb, hbad,
      process_gps_message]
  · simp [decodeLines, List.filter_append, List.filter_cons, hnb]

/-- A concrete parse table: the SKY scenario text parses, everything else
is a JSON decode error. -/
def parseEx (l : List Char) : Option JValue :=
  if l = "sky".toList then some (JValue.obj scenarioSky) else none

/-- Witness for C7: the malformed text is dropped silently and a valid
line after it still decodes to its quality report. -/
theorem claim7_malformed_silent_witness :
    parseEx "not json".toList = none ∧
    process_gps_message (parseEx "not json".toList) = [] ∧
    decodeLines parseEx ["not json".toList, "sky".toList] =
      decodeLines parseEx ["sky".toList] := by
  have h := claim7_malformed_silent parseEx "not json".toList rfl
  exact ⟨rfl, h.1, h.2.1 [] ["sky".toList]⟩

/-- C8: when streaming is already running, `start_streaming` returns
success with the state unchanged and performs no action — no connect
attempt, no second reader thread — and a second call in a row is the
same no-op, so two consecutive calls from a running state equal one;
more generally any call that returned success leaves a running state, so
the call immediately after it changes nothing. -/
theorem claim8_start_idempotent (s : ClientState) (ok1 ok2 : Bool)
    (h : s.running = true) :
    start_streaming ok1 s = (true, s, []) ∧
    start_streaming ok2 (start_streaming ok1 s).2.1 = (true, s, []) ∧
    (∀ (t : ClientState) (ok3 : Bool), (start_streaming ok3 t).1 = true →
      start_streaming ok2 ((start_streaming ok3 t).2.1) =
        (true, (start_streaming ok3 t).2.1, [])) := by
  have h1 : start_streaming ok1 s = (true, s, []) := by
    simp [start_streaming, h]
  refine ⟨h1, by simp [h1, start_streaming, h], ?_⟩
  intro t ok3 ht
  have hrun : ((start_streaming ok3 t).2.1).running = true := by
    unfold start_streaming at ht ⊢
    rcases hr : t.running with _ | _
    · rcases hc : t.connected with _ | _
      · rcases ho : ok3 with _ | _
        · simp [hr, hc, ho] at ht
        · simp [hr, hc, ho]
      · simp [hr, hc]
    · simp [hr]
  rw [start_streaming, hrun]
  simp

/-- A running client state. -/
def runningClientEx : ClientState :=
  { connected := true, running := true, threadsStarted := 1 }

/-- Witness for C8: at a concrete running state, a repeated call changes
nothing and spawns nothing. -/
theorem claim8_start_idempotent_witness :
    runningClientEx.running = true ∧
    start_streaming true runningClientEx = (true, runningClientEx, []) ∧
    start_streaming false (start_streaming true runningClientEx).2.1 =
      (true, runningClientEx, []) := by
  have h := claim8_start_idempotent runningClientEx true false rfl
  exact ⟨rfl, h.1, h.2.1⟩

/-- Folding reports into the cache never clears the location slot. -/
theorem foldl_applyReport_loc (rs : List Report) (c : Cache)
    (h : c.loc ≠ none) : (rs.foldl applyReport c).loc ≠ none := by
  induction rs generalizing c with
  | nil => exact h
  | cons r rest ih =>
      cases r with
      | position p => exact ih _ (by simp [applyReport])
      | velocity v => exact ih _ (by simpa [applyReport] using h)
      | quality q => exact ih _ (by simpa [applyReport] using h)

/-- Folding reports into the cache never clears the velocity slot. -/
theorem foldl_applyReport_vel (rs : List Report) (c : Cache)
    (h : c.vel ≠ none) : (rs.foldl applyReport c).vel ≠ none := by
  induction rs generalizing c with
  | nil => exact h
  | cons r rest ih =>
      cases r with
      | position p => exact ih _ (by simpa [applyReport] using h)
      | velocity v => exact ih _ (by simp [applyReport])
      | quality q => exact ih _ (by simpa [applyReport] using h)

/-- Folding reports into the cache never clears the quality slot. -/
theorem foldl_applyReport_qual (rs : List Report) (c : Cache)
    (h : c.qual ≠ none) : (rs.foldl applyReport c).qual ≠ none := by
  induction rs generalizing c with
  | nil => exact h
  | cons r rest ih =>
      cases r with
      | position p => exact ih _ (by simpa [applyReport] using h)
      | velocity v => exact ih _ (by simpa [applyReport] using h)
      | quality q => exact ih _ (by simp [applyReport])

/-- C9: in the freshly constructed client every cache slot is none, and
no sequence of operations — connect successes or failures, disconnects,
stop requests, or further decoded lines — ever takes a slot that holds a
value back to none. -/
theorem claim9_cache_never_reverts (s : FullState) (ops : List Op) :
    (initState.cache.loc = none ∧ initState.cache.vel = none ∧
     initState.cache.qual = none) ∧
    (s.cache.loc ≠ none → (runOps s ops).cache.loc ≠ none) ∧
    (s.cache.vel ≠ none → (runOps s ops).cache.vel ≠ none) ∧
    (s.cache.qual ≠ none → (runOps s ops).cache.qual ≠ none) := by
  refine ⟨⟨rfl, rfl, rfl⟩, ?_, ?_, ?_⟩ <;>
  · intro h
    induction ops generalizing s with
    | nil => exact h
    | cons op rest ih =>
        refine ih (applyOp s op) ?_
        cases op with
        | connect ok => cases ok <;> simpa [applyOp] using h
        | disconnect => simpa [applyOp] using h
        | stopStreaming => simpa [applyOp] using h
        | message m =>
            first
            | exact foldl_applyReport_loc _ _ h
            | exact foldl_applyReport_vel _ _ h
            | exact foldl_applyReport_qual _ _ h

/-- A client state with all three cache slots populated. -/
def populatedState : FullState :=
  { connected := true, running := true,
    cache := { loc := some ⟨1, 2, none⟩,
               vel := some ⟨JValue.num 1, JValue.num 0, JValue.num 0⟩,
               qual := some ⟨4, 3, JValue.null, JValue.null, JValue.null⟩ } }

/-- Witness for C9: after a disconnect, a failed reconnect, a stop and a
malformed line, every populated slot still holds a value. -/
theorem claim9_cache_never_reverts_witness :
    (initState.cache.loc = none ∧ initState.cache.vel = none ∧
     initState.cache.qual = none) ∧
    ((runOps populatedState
        [Op.disconnect, Op.connect false, Op.stopStreaming,
         Op.message none]).cache.loc ≠ none ∧
     (runOps populatedState
        [Op.disconnect, Op.connect false, Op.stopStreaming,
         Op.message none]).cache.vel ≠ none ∧
     (runOps populatedState
        [Op.disconnect, Op.connect false, Op.stopStreaming,
         Op.message none]).cache.qual ≠ none) := by
  have h := claim9_cache_never_reverts populatedState
    [Op.disconnect, Op.connect false, Op.stopStreaming, Op.message none]
  exact ⟨h.1, h.2.1 (by simp [populatedState]), h.2.2.1 (by simp [populatedState]),
    h.2.2.2 (by simp [populatedState])⟩

/-- A newline-free buffer followed by a newline drains to that single
line with an empty leftover buffer. -/
theorem drain_noNL_newline (x : List Char) (h : Char.ofNat 10 ∉ x) :
    drain (x ++ [Char.ofNat 10]) = ([x], []) := by
  induction x with
  | nil => rfl
  | cons c rest ih =>
      have hc : c ≠ '\n' := by
        intro hcc
        exact h (by simp [hcc])
      have hrest : Char.ofNat 10 ∉ rest := fun hm => h (List.mem_cons_of_mem _ hm)
      simp [drain, hc, ih hrest]

/-- C10: a read error or a peer close leaves the receive buffer exactly
as it was, and the loop goes on with that same buffer; thus a partial
line pending before the failure is spliced with the text read after the
reconnection and handed to the decoder as one line. The buffer is empty
only because `_gps_loop` initialises it when a new read loop starts. -/
theorem claim10_buffer_survives_reconnect (b s : List Char) (ok : Bool)
    (rest : List ReadEvent)
    (hb : Char.ofNat 10 ∉ b) (hs : Char.ofNat 10 ∉ s) :
    (loopStep b (ReadEvent.error ok)).1 = b ∧
    (loopStep b (ReadEvent.eof ok)).1 = b ∧
    gpsLoop b (ReadEvent.error ok :: ReadEvent.data (s ++ [Char.ofNat 10]) :: rest) =
      (loopStep b (ReadEvent.error ok)).2 ++
      (if nonBlank (b ++ s) then [LoopAction.processLine (b ++ s)] else []) ++
      gpsLoop [] rest ∧
    gpsLoopRun rest = gpsLoop [] rest := by
  have hbs : Char.ofNat 10 ∉ b ++ s := by
    intro hm
    rcases List.mem_append.mp hm with h1 | h1
    · exact hb h1
    · exact hs h1
  have hd : drain (b ++ (s ++ [Char.ofNat 10])) = ([b ++ s], []) := by
    rw [← List.append_assoc]
    exact drain_noNL_newline _ hbs
  refine ⟨rfl, rfl, ?_, rfl⟩
  show (loopStep b (ReadEvent.error ok)).2 ++
      gpsLoop b (ReadEvent.data (s ++ [Char.ofNat 10]) :: rest) = _
  rw [List.append_assoc]
  congr 1
  show (loopStep b (ReadEvent.data (s ++ [Char.ofNat 10]))).2 ++
      gpsLoop (loopStep b (ReadEvent.data (s ++ [Char.ofNat 10]))).1 rest = _
  by_cases hnb : nonBlank (b ++ s) <;>
    simp [loopStep, hd, hnb, List.filter, gpsLoop]

/-- Witness for C10: the partial line abc pending when the peer closes is
joined with the def and newline read after reconnection into the single
decoded line abcdef. -/
theorem claim10_buffer_survives_reconnect_witness :
    (Char.ofNat 10 ∉ "abc".toList ∧ Char.ofNat 10 ∉ "def".toList) ∧
    gpsLoop "abc".toList
      [ReadEvent.error false, ReadEvent.data ("def".toList ++ [Char.ofNat 10])] =
      [LoopAction.sleep (1/2), LoopAction.connectAttempt false,
       LoopAction.sleep 5, LoopAction.processLine "abcdef".toList] := by
  have h := claim10_buffer_survives_reconnect "abc".toList "def".toList false []
    (by decide) (by decide)
  refine ⟨⟨by decide, by decide⟩, ?_⟩
  have h3 := h.2.2.1
  rw [h3]
  rfl
